import Mathlib

/-!
Verification development for the WebSockets relay layer
(`mitmproxy/protocol/websockets.py`, class `WebSocketsLayer`).

The layer is embedded shallowly:

* pure decision logic (`_handle_frame`, the close-info decoding) becomes
  pure Lean functions emitting an explicit list of observable events
  (sends to the peer connection and leveled diagnostic records);
* the duplex relay loop (`__call__`) becomes a script-driven interpreter:
  each iteration of the `while` loop is fed a record saying whether the
  shutdown flag is set, whether the readiness wait raised, which of the
  two connections is ready, and what reading/forwarding a frame on a ready
  connection does (yields a frame, or raises a transport-level or other
  exception);
* the `try/except` structure of `__call__` becomes an explicit match on
  the loop's result, reproducing the Python scoping of the local
  `is_server` variable (`Option Bool`, unbound before the first ready
  connection is processed).

External collaborators (`netlib.websockets` helpers, the frame codec) are
not part of this source file; where a claim needs them they are modelled
from the spec and marked as such in their doc comments.
-/

namespace Websockets

/-- Header of a decoded WebSocket frame: FIN bit and 4-bit opcode.  The
relay inspects only the opcode; every other header field travels opaquely
inside the frame value (the binary codec is an external collaborator). -/
structure FrameHeader where
  fin : Bool
  opcode : Nat
  deriving DecidableEq

/-- One decoded WebSocket wire frame: header plus raw payload bytes. -/
structure Frame where
  header : FrameHeader
  payload : List Nat
  deriving DecidableEq

def OPCODE.CONTINUE : Nat := 0

def OPCODE.TEXT : Nat := 1

def OPCODE.BINARY : Nat := 2

def OPCODE.CLOSE : Nat := 8

def OPCODE.PING : Nat := 9

def OPCODE.PONG : Nat := 10

/-- Modelled from the spec: the fixed status-code→name table
(`netlib.websockets.CLOSE_REASON`, an external collaborator whose source is
not part of this layer).  Entries are the RFC6455 close codes. -/
def CLOSE_REASON : List (Nat × String) := [
  (1000, "NORMAL_CLOSURE"),
  (1001, "GOING_AWAY"),
  (1002, "PROTOCOL_ERROR"),
  (1003, "UNSUPPORTED_DATA"),
  (1004, "RESERVED"),
  (1005, "RESERVED_NO_STATUS"),
  (1006, "RESERVED_ABNORMAL_CLOSURE"),
  (1007, "INVALID_PAYLOAD_DATA"),
  (1008, "POLICY_VIOLATION"),
  (1009, "MESSAGE_TOO_BIG"),
  (1010, "MANDATORY_EXTENSION"),
  (1011, "INTERNAL_ERROR"),
  (1015, "RESERVED_TLS_HANDSHAKE_FAILED")]

/-- The default name string the source passes for codes absent from the
table: `CLOSE_REASON.get_name(code, default='unknown status code')`. -/
def unknown_status_code : String := "unknown status code"

/-- The placeholder string the source assigns to `code` when the payload
carries fewer than two bytes. -/
def status_code_missing : String := "(status code missing)"

/-- The placeholder string the source assigns to `reason` when the payload
carries at most two bytes. -/
def message_missing : String := "(message missing)"

/-- Lookup of a close code in the fixed table with a default for absent
codes; models `CLOSE_REASON.get_name(code, default=...)`. -/
def get_name (code : Nat) (default : String) : String :=
  match CLOSE_REASON.lookup code with
  | some s => s
  | none => default

/-- The `code` variable of the CLOSE branch: in the source it is either the
placeholder string `'(status code missing)'` or the unpacked `uint16`. -/
inductive CodeField
  | missing
  | code (n : Nat)
  deriving DecidableEq

/-- The `msg` variable of the CLOSE branch: in the source it is either
Python `None` (here `noName`) or the looked-up status name. -/
inductive MsgField
  | noName
  | name (s : String)
  deriving DecidableEq

/-- The `reason` variable of the CLOSE branch: in the source it is either
the placeholder string `'(message missing)'` or the payload bytes after the
first two. -/
inductive ReasonField
  | messageMissing
  | bytes (bs : List Nat)
  deriving DecidableEq

/-- The decoded Close Info reported by the informational close record. -/
structure CloseInfo where
  code : CodeField
  msg : MsgField
  reason : ReasonField
  deriving DecidableEq

/-- Big-endian unsigned 16-bit decode of the first two payload bytes
(`struct.unpack('!H', frame.payload[:2])`); in the source it is evaluated
only under the length-at-least-two guard. -/
def unpack_u16 : List Nat → Nat
  | b0 :: b1 :: _ => 256 * b0 + b1
  | _ => 0

/-- The CLOSE-branch decoding of `WebSocketsLayer._handle_frame`, assigned
exactly as the source does:

    code = '(status code missing)'
    msg = None
    reason = '(message missing)'
    if len(frame.payload) >= 2:
        code, = struct.unpack('!H', frame.payload[:2])
        msg = websockets.CLOSE_REASON.get_name(code, default='unknown status code')
    if len(frame.payload) > 2:
        reason = frame.payload[2:]
-/
def close_info (payload : List Nat) : CloseInfo :=
  let code := CodeField.missing
  let msg := MsgField.noName
  let reason := ReasonField.messageMissing
  let code := if 2 ≤ payload.length then CodeField.code (unpack_u16 payload) else code
  let msg := if 2 ≤ payload.length then
      MsgField.name (get_name (unpack_u16 payload) unknown_status_code) else msg
  let reason := if 2 < payload.length then ReasonField.bytes (payload.drop 2) else reason
  ⟨code, msg, reason⟩

/-- Diagnostic levels used by this layer (`self.log(..., "debug"/"info")`). -/
inductive LogLevel
  | debug
  | info
  deriving DecidableEq

/-- Structured content of the diagnostic records this layer emits.  The
spec fixes the required content, not the wording, so records are kept
structured rather than formatted. -/
inductive LogMsg
  /-- `"WebSockets Frame received from {server|client}"` (debug), emitted at
  the top of `_handle_frame` for every decoded frame. -/
  | frameReceived (fromServer : Bool) (f : Frame)
  /-- `"WebSockets frame received by {is_server}: {frame}"` (debug), emitted
  in the data-opcode branch after forwarding. -/
  | frameForwardNote (fromServer : Bool) (f : Frame)
  /-- `"WebSockets connection closed: {code} {msg}, {reason}"` (info),
  emitted in the CLOSE branch after forwarding. -/
  | connectionClosed (info : CloseInfo)
  /-- `"WebSockets connection closed unexpectedly by {server|client}: {e}"`
  (info), emitted by the transport-exception handler of `__call__`. -/
  | closedUnexpectedly (byServer : Bool) (e : String)
  deriving DecidableEq

/-- Observable actions of the layer, in program order.  `send toServer f`
is `other_conn.send(bytes(frame))` with `toServer` naming the destination
connection; the codec re-encoding `bytes(frame)` is the external trusted
serializer, so the event carries the frame value itself. -/
inductive Event
  | sendRequestToServer
  | sendResponseToClient (status : Nat) (reasonPhrase : String)
      (headers : List (String × String)) (body : List Nat)
  | send (toServer : Bool) (f : Frame)
  | log (lvl : LogLevel) (m : LogMsg)
  deriving DecidableEq

/-- `WebSocketsLayer._handle_frame`, with the connection sends and log
calls reified as events and the Python return value (`True` = keep
relaying, `False` = close the connection) as the second component.
`is_server` says which side the frame came from; the destination of a
forward is the opposite side. -/
def handle_frame (f : Frame) (is_server : Bool) : List Event × Bool :=
  let dbg := Event.log LogLevel.debug (LogMsg.frameReceived is_server f)
  if f.header.opcode &&& 8 = 0 then
    ([dbg, Event.send (!is_server) f,
      Event.log LogLevel.debug (LogMsg.frameForwardNote is_server f)], true)
  else if f.header.opcode = OPCODE.PING ∨ f.header.opcode = OPCODE.PONG then
    ([dbg, Event.send (!is_server) f], true)
  else if f.header.opcode = OPCODE.CLOSE then
    ([dbg, Event.send (!is_server) f,
      Event.log LogLevel.info (LogMsg.connectionClosed (close_info f.payload))], false)
  else
    ([dbg, Event.send (!is_server) f], true)

/-- What processing one ready connection does, as scripted input to the
loop interpreter: `Frame.from_file` either yields a frame or raises, and
the forward inside `_handle_frame` may itself raise.  `isTransport` marks
the exception classes caught by the first handler of `__call__`
(`socket.error`, `netlib.exceptions.TcpException`, `SSL.Error`). -/
inductive ConnInput
  | readErr (isTransport : Bool) (e : String)
  | frameOk (f : Frame) (sendErr : Option (Bool × String))
  deriving DecidableEq

/-- Scripted input for one iteration of the `while` loop: the shutdown
flag sampled by `self.channel.should_exit.is_set()`, an optional exception
raised by `tcp.ssl_read_select`, and the ready state of each connection
(`none` = not ready this round). -/
structure Iteration where
  shouldExit : Bool
  selectErr : Option (Bool × String)
  readyClient : Option ConnInput
  readyServer : Option ConnInput
  deriving DecidableEq

/-- Result of processing ready connections inside one iteration: fall
through to the next iteration, `return` out of `__call__`, or an exception
unwinding to the handlers. -/
inductive StepRes
  | ok
  | returned
  | exc (isTransport : Bool) (e : String)
  deriving DecidableEq

/-- Result of running the whole `while` loop body: the scripted iterations
ran out with the loop still live, the function returned, or an exception
unwound. -/
inductive LoopRes
  | exhausted
  | returned
  | exc (isTransport : Bool) (e : String)
  deriving DecidableEq

structure ReadyOut where
  events : List Event
  lastFromServer : Option Bool
  res : StepRes
  deriving DecidableEq

structure ItersOut where
  events : List Event
  lastFromServer : Option Bool
  res : LoopRes
  deriving DecidableEq

/-- Processing of one ready connection: the source assigns
`source_conn`/`other_conn`/`is_server`, reads one frame, and dispatches to
`_handle_frame`; a send failure interrupts `_handle_frame` after its
initial debug record. -/
def runConn (is_server : Bool) (ci : ConnInput) : List Event × StepRes :=
  match ci with
  | ConnInput.readErr t e => ([], StepRes.exc t e)
  | ConnInput.frameOk f sendErr =>
    match sendErr with
    | some (t, e) =>
      ([Event.log LogLevel.debug (LogMsg.frameReceived is_server f)], StepRes.exc t e)
    | none =>
      let r := handle_frame f is_server
      (r.1, if r.2 then StepRes.ok else StepRes.returned)

/-- The `for conn in r:` loop over the ready connections, threading the
Python local `is_server` (assigned at the top of each pass, before the
read, so it names the side being processed when an exception is raised). -/
def runReady : List (Bool × ConnInput) → Option Bool → ReadyOut
  | [], last => ⟨[], last, StepRes.ok⟩
  | (b, ci) :: rest, _ =>
    match runConn b ci with
    | (evs, StepRes.ok) =>
      let rr := runReady rest (some b)
      ⟨evs ++ rr.events, rr.lastFromServer, rr.res⟩
    | (evs, StepRes.returned) => ⟨evs, some b, StepRes.returned⟩
    | (evs, StepRes.exc t e) => ⟨evs, some b, StepRes.exc t e⟩

/-- The ready list of an iteration, in the order `conns = [client, server]`
used by the readiness wait. -/
def readyList (it : Iteration) : List (Bool × ConnInput) :=
  (match it.readyClient with
   | some c => [(false, c)]
   | none => []) ++
  (match it.readyServer with
   | some s => [(true, s)]
   | none => [])

/-- The `while not self.channel.should_exit.is_set():` loop of
`__call__`, driven by the scripted iterations. -/
def runIters : List Iteration → Option Bool → ItersOut
  | [], last => ⟨[], last, LoopRes.exhausted⟩
  | it :: rest, last =>
    if it.shouldExit then ⟨[], last, LoopRes.returned⟩
    else
      match it.selectErr with
      | some (t, e) => ⟨[], last, LoopRes.exc t e⟩
      | none =>
        match runReady (readyList it) last with
        | ⟨evs, l, StepRes.ok⟩ =>
          let rr := runIters rest l
          ⟨evs ++ rr.events, rr.lastFromServer, rr.res⟩
        | ⟨evs, l, StepRes.returned⟩ => ⟨evs, l, LoopRes.returned⟩
        | ⟨evs, l, StepRes.exc t e⟩ => ⟨evs, l, LoopRes.exc t e⟩

/-- Exceptions that can escape `__call__` to its caller. `nameError` is
the Python `NameError` raised when the transport-exception handler reads
the local `is_server` before any ready connection was ever processed; an
exception raised inside an `except` clause is not caught by the sibling
clauses, so it propagates. -/
inductive Exc
  | protocolException (msg : String)
  | nameError
  deriving DecidableEq

/-- Outcome of `__call__`: returned normally, the scripted input ran out
with the loop still live, or an exception reached the caller. -/
inductive Outcome
  | returned
  | exhausted
  | raised (e : Exc)
  deriving DecidableEq

def protocol_error_head : String := "Error in WebSockets connection: "

/-- The relay phase of `WebSocketsLayer.__call__`: the `try` block running
the loop, the transport-exception handler (info record attributing the
disconnect via the last value of `is_server`, then normal fall-through
return) and the catch-all handler re-raising as `ProtocolException`. -/
def relay_loop (its : List Iteration) : List Event × Outcome :=
  let r := runIters its none
  match r.res with
  | LoopRes.returned => (r.events, Outcome.returned)
  | LoopRes.exhausted => (r.events, Outcome.exhausted)
  | LoopRes.exc true e =>
    match r.lastFromServer with
    | some b =>
      (r.events ++ [Event.log LogLevel.info (LogMsg.closedUnexpectedly b e)],
       Outcome.returned)
    | none => (r.events, Outcome.raised Exc.nameError)
  | LoopRes.exc false e =>
    (r.events, Outcome.raised (Exc.protocolException (String.append protocol_error_head e)))

/-- HTTP header list; values are opaque strings. -/
def Headers := List (String × String)

instance : DecidableEq Headers := by
  unfold Headers
  infer_instance

def get_header (hs : Headers) (k : String) : Option String :=
  List.lookup k hs

/-- Modelled from the spec: `netlib.websockets.get_server_accept`, a pure
header-parsing utility (external collaborator). -/
def get_server_accept (hs : Headers) : Option String :=
  get_header hs "sec-websocket-accept"

/-- Modelled from the spec: `netlib.websockets.get_protocol`. -/
def get_protocol (hs : Headers) : Option String :=
  get_header hs "sec-websocket-protocol"

/-- Modelled from the spec: `netlib.websockets.get_extensions`. -/
def get_extensions (hs : Headers) : Option String :=
  get_header hs "sec-websocket-extensions"

/-- Modelled from the spec: `netlib.websockets.check_handshake`, the
header-based upgrade validation (external collaborator).  The source calls
it on `response.headers` alone, so the model is a predicate on headers:
upgrade and connection tokens plus presence of the accept field.  Token
matching is simplified to exact lookup. -/
def check_handshake (hs : Headers) : Bool :=
  (get_header hs "upgrade" == some "websocket") &&
  (get_header hs "connection" == some "Upgrade") &&
  (get_server_accept hs).isSome

/-- Modelled from the spec: the accept token is an opaque value derived
deterministically from the client key (SHA-1/base64 in the real codec,
treated here as an abstract derivation). -/
def create_server_nonce (key : String) : String :=
  String.append key "|derived-accept"

/-- Modelled from the spec: `netlib.websockets.server_handshake_headers`,
building the 101 response headers from the client key plus the negotiated
subprotocol (only if selected) and extensions (only if any). -/
def server_handshake_headers (key : String)
    (protocol extensions : Option String) : Headers :=
  [("connection", "Upgrade"),
   ("upgrade", "websocket"),
   ("sec-websocket-accept", create_server_nonce key)] ++
  (match protocol with
   | some p => [("sec-websocket-protocol", p)]
   | none => []) ++
  (match extensions with
   | some x => [("sec-websocket-extensions", x)]
   | none => [])

/-- The relevant per-session state of `WebSocketsLayer`: the client key
captured in `__init__` and the three values extracted from the origin
server's handshake response in `_initiate_server_conn`. -/
structure Session where
  client_key : String
  server_accept : Option String
  server_protocol : Option String
  server_extensions : Option String
  deriving DecidableEq

/-- `WebSocketsLayer._initiate_server_conn` after the upgrade request was
relayed and a response read: validate via `check_handshake` (failure
raises `ProtocolException`, here `none`) and extract the negotiated
parameters into the session. -/
def initiate_server_conn (key : String) (response_headers : Headers) : Option Session :=
  if check_handshake response_headers then
    some ⟨key, get_server_accept response_headers,
      get_protocol response_headers, get_extensions response_headers⟩
  else none

/-- The HTTP 101 response sent to the client by
`WebSocketsLayer._complete_handshake`: status 101, reason phrase
`RESPONSES.get(101)`, headers built by `server_handshake_headers` from the
client key and the negotiated protocol/extensions, empty body. -/
def complete_handshake (s : Session) : Event :=
  Event.sendResponseToClient 101 "Switching Protocols"
    (server_handshake_headers s.client_key s.server_protocol s.server_extensions) []

def handshake_failed_msg : String :=
  "Establishing WebSockets connection with server failed"

/-- One whole scripted session: the client key, the origin server's
handshake response headers, and the relay-loop script. -/
structure Env where
  client_key : String
  response_headers : Headers
  iterations : List Iteration
  deriving DecidableEq

/-- `WebSocketsLayer.__call__`: initiate the server connection (send the
upgrade request, read and validate the response), complete the
client-facing handshake, then run the relay loop. -/
def run (env : Env) : List Event × Outcome :=
  match initiate_server_conn env.client_key env.response_headers with
  | none =>
    ([Event.sendRequestToServer],
     Outcome.raised (Exc.protocolException handshake_failed_msg))
  | some s =>
    let r := relay_loop env.iterations
    (Event.sendRequestToServer :: complete_handshake s :: r.1, r.2)

/-- The frames forwarded by a trace of events: destination side and frame,
in order. -/
def sends (evs : List Event) : List (Bool × Frame) :=
  evs.filterMap fun e =>
    match e with
    | Event.send t f => some (t, f)
    | _ => none

/-- The frames that entered `_handle_frame` in a trace, in order (the
per-frame debug record at the top of `_handle_frame` is emitted exactly
once per decoded frame). -/
def framesReceived (evs : List Event) : List (Bool × Frame) :=
  evs.filterMap fun e =>
    match e with
    | Event.log LogLevel.debug (LogMsg.frameReceived b f) => some (b, f)
    | _ => none

lemma handle_frame_close (f : Frame) (b : Bool) (h : f.header.opcode = OPCODE.CLOSE) :
    handle_frame f b =
      ([Event.log LogLevel.debug (LogMsg.frameReceived b f),
        Event.send (!b) f,
        Event.log LogLevel.info (LogMsg.connectionClosed (close_info f.payload))], false) := by
  rw [OPCODE.CLOSE] at h
  simp [handle_frame, h, OPCODE.PING, OPCODE.PONG, OPCODE.CLOSE]

lemma handle_frame_cont (f : Frame) (b : Bool) (h : f.header.opcode ≠ OPCODE.CLOSE) :
    (handle_frame f b).2 = true := by
  unfold handle_frame
  split_ifs <;> simp_all

lemma handle_frame_sends (f : Frame) (b : Bool) :
    sends (handle_frame f b).1 = [(!b, f)] := by
  unfold handle_frame
  split_ifs <;> rfl

lemma handle_frame_frames (f : Frame) (b : Bool) :
    framesReceived (handle_frame f b).1 = [(b, f)] := by
  unfold handle_frame
  split_ifs <;> rfl

lemma handle_frame_stop_close (f : Frame) (b : Bool)
    (h : (handle_frame f b).2 = false) : f.header.opcode = OPCODE.CLOSE := by
  by_contra hc
  rw [handle_frame_cont f b hc] at h
  exact absurd h (by decide)

lemma handle_frame_send_mem {f : Frame} {b t : Bool} {g : Frame}
    (h : Event.send t g ∈ (handle_frame f b).1) : t = !b ∧ g = f := by
  unfold handle_frame at h
  split_ifs at h <;> simp_all

/-- A concrete CLOSE frame: status code 1000 (bytes `0x03 0xE8`) followed
by the reason bytes of `"bye"`. -/
def sample_close_frame : Frame := ⟨⟨true, 8⟩, [3, 232, 98, 121, 101]⟩

/-- A concrete TEXT frame with payload `"hello"`. -/
def sample_text_frame : Frame := ⟨⟨true, 1⟩, [104, 101, 108, 108, 111]⟩

/-- A concrete PING frame. -/
def sample_ping_frame : Frame := ⟨⟨true, 9⟩, [104, 105]⟩

/-- C1 (counterexample): at the concrete CLOSE payload `[]` (length 0) the
code reports the status name as Python `None`, not as the placeholder
string `"(status code missing)"` the claim requires, and it does report a
reason slot, namely the placeholder `"(message missing)"`, where the claim
says no reason is reported. -/
theorem close_info_claim_cex :
    (close_info ([] : List Nat)).msg ≠ MsgField.name status_code_missing ∧
    (close_info ([] : List Nat)).reason = ReasonField.messageMissing := by
  decide

/-- C1 (amended): the decoded Close Info follows the source exactly: for
payload length 0 or 1 the status code is the placeholder
`"(status code missing)"`, the status name is `None` and the reason is the
placeholder `"(message missing)"`; for length exactly 2 the code and name
are present and the reason is the placeholder `"(message missing)"`; for
length greater than 2 the code and name are present and the reason is the
payload bytes after the first two; the name is looked up in the fixed
status-code table and defaults to `"unknown status code"` when absent. -/
theorem close_info_cases :
    (∀ p : List Nat, close_info p =
      if p.length < 2 then
        ⟨CodeField.missing, MsgField.noName, ReasonField.messageMissing⟩
      else
        ⟨CodeField.code (unpack_u16 p),
         MsgField.name (get_name (unpack_u16 p) unknown_status_code),
         if 2 < p.length then ReasonField.bytes (p.drop 2)
         else ReasonField.messageMissing⟩) ∧
    (∀ c d, get_name c d =
      match CLOSE_REASON.lookup c with
      | some s => s
      | none => d) := by
  constructor
  · intro p
    unfold close_info
    rcases Nat.lt_or_ge p.length 2 with h | h
    · have h2 : ¬ 2 ≤ p.length := by omega
      have h3 : ¬ 2 < p.length := by omega
      simp only [h2, h3, if_neg, if_pos, h, if_true, if_false]
    · have h2 : 2 ≤ p.length := h
      have h3 : ¬ p.length < 2 := by omega
      simp only [h2, if_pos, h3, if_neg, if_false]
  · intro c d
    rfl

/-- C2: for every frame whose opcode is CLOSE, `_handle_frame` forwards
the frame to the other connection first, then emits the informational
close record carrying the decoded status code, status name and reason, and
then signals loop termination (returns `False`); and whenever it signals
termination, the frame was forwarded onward. -/
theorem close_frame_relayed_then_terminate (f : Frame) (b : Bool) :
    (f.header.opcode = OPCODE.CLOSE →
      handle_frame f b =
        ([Event.log LogLevel.debug (LogMsg.frameReceived b f),
          Event.send (!b) f,
          Event.log LogLevel.info (LogMsg.connectionClosed (close_info f.payload))],
         false)) ∧
    ((handle_frame f b).2 = false → Event.send (!b) f ∈ (handle_frame f b).1) := by
  refine ⟨handle_frame_close f b, fun h => ?_⟩
  rw [handle_frame_close f b (handle_frame_stop_close f b h)]
  simp

/-- Witness for C2 at the concrete CLOSE frame with payload
`0x03 0xE8 "bye"`. -/
theorem close_frame_relayed_then_terminate_witness :
    handle_frame sample_close_frame false =
      ([Event.log LogLevel.debug (LogMsg.frameReceived false sample_close_frame),
        Event.send true sample_close_frame,
        Event.log LogLevel.info
          (LogMsg.connectionClosed (close_info sample_close_frame.payload))],
       false) ∧
    Event.send true sample_close_frame ∈ (handle_frame sample_close_frame false).1 := by
  have h := close_frame_relayed_then_terminate sample_close_frame false
  exact ⟨h.1 rfl, h.2 (by decide)⟩

/-- C3: every frame whose opcode is not CLOSE — data frames, PING, PONG,
and any other or reserved opcode — is forwarded exactly once, unmodified,
to the opposite connection, and `_handle_frame` signals that the loop
continues.  (The forwarded value is the received frame itself; the byte
re-encoding is the trusted external codec.) -/
theorem non_close_frames_forwarded (f : Frame) (b : Bool)
    (h : f.header.opcode ≠ OPCODE.CLOSE) :
    (handle_frame f b).2 = true ∧ sends (handle_frame f b).1 = [(!b, f)] :=
  ⟨handle_frame_cont f b h, handle_frame_sends f b⟩

/-- Witness for C3 at a concrete TEXT frame with payload `"hello"`. -/
theorem non_close_frames_forwarded_witness :
    (handle_frame sample_text_frame false).2 = true ∧
    sends (handle_frame sample_text_frame false).1 = [(true, sample_text_frame)] :=
  non_close_frames_forwarded sample_text_frame false (by decide)

/-- C9: the frame classifier is a pure function of the decoded frame:
two runs on the same decoded frame yield the same events, the same
continue-versus-terminate action and the same Close Info. -/
theorem classifier_pure (f g : Frame) (b : Bool) (h : f = g) :
    handle_frame f b = handle_frame g b ∧
    close_info f.payload = close_info g.payload := by
  subst h
  exact ⟨rfl, rfl⟩

/-- Witness for C9 at a concrete PING frame. -/
theorem classifier_pure_witness :
    handle_frame sample_ping_frame true = handle_frame sample_ping_frame true ∧
    close_info sample_ping_frame.payload = close_info sample_ping_frame.payload :=
  classifier_pure sample_ping_frame sample_ping_frame true rfl

/-- No frame in the list is a CLOSE frame. -/
def noCloseFrame (l : List (Bool × Frame)) : Prop :=
  ∀ p ∈ l, p.2.header.opcode ≠ OPCODE.CLOSE

/-- Some CLOSE frame was forwarded in the trace. -/
def closeSendIn (evs : List Event) : Prop :=
  ∃ t f, Event.send t f ∈ evs ∧ f.header.opcode = OPCODE.CLOSE

/-- Every CLOSE frame occurring in the list is its last element. -/
def closesLast (l : List (Bool × Frame)) : Prop :=
  ∀ pre b f post, l = pre ++ (b, f) :: post →
    f.header.opcode = OPCODE.CLOSE → post = []

lemma closesLast_nil : closesLast [] := by
  intro pre b f post h _
  exact absurd h (by simp)

lemma closesLast_singleton (x : Bool × Frame) : closesLast [x] := by
  intro pre b f post h _
  have hl := congrArg List.length h
  simp at hl
  have hp : post.length = 0 := by omega
  exact List.length_eq_zero.mp hp

lemma noCloseFrame_closesLast {l : List (Bool × Frame)} (h : noCloseFrame l) :
    closesLast l := by
  intro pre b f post heq hc
  exact absurd hc (h (b, f) (by rw [heq]; simp))

lemma closesLast_append {l1 l2 : List (Bool × Frame)} (h2 : closesLast l2) :
    ∀ _ : noCloseFrame l1, closesLast (l1 ++ l2) := by
  induction l1 with
  | nil => intro _; simpa using h2
  | cons x t ih =>
    intro h1 pre b f post heq hc
    rcases pre with _ | ⟨y, pre⟩
    · simp at heq
      have hx := h1 x (by simp)
      rw [heq.1] at hx
      exact absurd hc hx
    · simp at heq
      exact ih (fun p hp => h1 p (by simp [hp])) pre b f post heq.2 hc

lemma closeSendIn_append {e1 e2 : List Event} :
    closeSendIn (e1 ++ e2) ↔ closeSendIn e1 ∨ closeSendIn e2 := by
  constructor
  · rintro ⟨t, f, hm, hcf⟩
    rcases List.mem_append.mp hm with h | h
    · exact Or.inl ⟨t, f, h, hcf⟩
    · exact Or.inr ⟨t, f, h, hcf⟩
  · rintro (⟨t, f, hm, hcf⟩ | ⟨t, f, hm, hcf⟩)
    · exact ⟨t, f, List.mem_append.mpr (Or.inl hm), hcf⟩
    · exact ⟨t, f, List.mem_append.mpr (Or.inr hm), hcf⟩

lemma framesReceived_append (e1 e2 : List Event) :
    framesReceived (e1 ++ e2) = framesReceived e1 ++ framesReceived e2 :=
  List.filterMap_append e1 e2 _

/-- Per-connection invariants: every CLOSE frame processed is the last one
of the step's trace; a step that lets the loop continue processed no CLOSE
frame and forwarded no CLOSE frame; and a step that forwarded a CLOSE
frame makes `_handle_frame` return `False` (the loop `return`s). -/
lemma runConn_spec (b : Bool) (ci : ConnInput) :
    closesLast (framesReceived (runConn b ci).1) ∧
    ((runConn b ci).2 = StepRes.ok →
      noCloseFrame (framesReceived (runConn b ci).1) ∧
      ¬ closeSendIn (runConn b ci).1) ∧
    (closeSendIn (runConn b ci).1 → (runConn b ci).2 = StepRes.returned) := by
  cases ci with
  | readErr t e =>
    refine ⟨?_, ?_, ?_⟩
    · simpa [runConn, framesReceived] using closesLast_nil
    · intro h; simp [runConn] at h
    · rintro ⟨t', f, hm, _⟩; simp [runConn] at hm
  | frameOk f sendErr =>
    cases sendErr with
    | some te =>
      rcases te with ⟨t, e⟩
      refine ⟨?_, ?_, ?_⟩
      · simpa [runConn, framesReceived] using
          closesLast_singleton (b, f)
      · intro h; simp [runConn] at h
      · rintro ⟨t', g, hm, _⟩; simp [runConn] at hm
    | none =>
      by_cases hc : f.header.opcode = OPCODE.CLOSE
      · have hf := handle_frame_close f b hc
        refine ⟨?_, ?_, ?_⟩
        · simpa [runConn, hf, framesReceived] using closesLast_singleton (b, f)
        · intro h; simp [runConn, hf] at h
        · intro _; simp [runConn, hf]
      · have hcont : (handle_frame f b).2 = true := handle_frame_cont f b hc
        refine ⟨?_, ?_, ?_⟩
        · simpa [runConn, handle_frame_frames] using closesLast_singleton (b, f)
        · intro _
          constructor
          · intro p hp
            simp [runConn, handle_frame_frames] at hp
            rw [hp]
            exact hc
          · rintro ⟨t', g, hm, hcg⟩
            simp only [runConn] at hm
            exact absurd hcg (by rw [(handle_frame_send_mem hm).2]; exact hc)
        · rintro ⟨t', g, hm, hcg⟩
          simp only [runConn] at hm
          exact absurd hcg (by rw [(handle_frame_send_mem hm).2]; exact hc)

lemma noCloseFrame_append {l1 l2 : List (Bool × Frame)}
    (h1 : noCloseFrame l1) (h2 : noCloseFrame l2) : noCloseFrame (l1 ++ l2) := by
  intro p hp
  rcases List.mem_append.mp hp with h | h
  · exact h1 p h
  · exact h2 p h

/-- Invariants of the `for conn in r:` pass over the ready connections:
every CLOSE frame processed is the last frame of the pass; a pass that
falls through to the next iteration processed and forwarded no CLOSE; a
pass that forwarded a CLOSE ends in `return`; and a pass that ends in an
exception has the local `is_server` bound to the side being processed. -/
lemma runReady_spec : ∀ (inputs : List (Bool × ConnInput)) (last : Option Bool),
    closesLast (framesReceived (runReady inputs last).events) ∧
    ((runReady inputs last).res = StepRes.ok →
      noCloseFrame (framesReceived (runReady inputs last).events) ∧
      ¬ closeSendIn (runReady inputs last).events) ∧
    (closeSendIn (runReady inputs last).events →
      (runReady inputs last).res = StepRes.returned) ∧
    (∀ t e, (runReady inputs last).res = StepRes.exc t e →
      ∃ b, (runReady inputs last).lastFromServer = some b)
  | [], last => by
    refine ⟨?_, ?_, ?_, ?_⟩
    · simpa [runReady, framesReceived] using closesLast_nil
    · intro _
      constructor
      · intro p hp; simp [runReady, framesReceived] at hp
      · rintro ⟨t, f, hm, _⟩; simp [runReady] at hm
    · rintro ⟨t, f, hm, _⟩; simp [runReady] at hm
    · intro t e h; simp [runReady] at h
  | (b, ci) :: rest, last => by
    have hcs := runConn_spec b ci
    rcases hr : runConn b ci with ⟨evs, res⟩
    rw [hr] at hcs
    dsimp only at hcs
    cases res with
    | ok =>
      have ih := runReady_spec rest (some b)
      have hrr : runReady ((b, ci) :: rest) last =
          ⟨evs ++ (runReady rest (some b)).events,
           (runReady rest (some b)).lastFromServer,
           (runReady rest (some b)).res⟩ := by
        simp [runReady, hr]
      rw [hrr]
      dsimp only
      obtain ⟨hnc, hns⟩ := hcs.2.1 rfl
      refine ⟨?_, ?_, ?_, ?_⟩
      · rw [framesReceived_append]
        exact closesLast_append ih.1 hnc
      · intro h
        obtain ⟨hnc2, hns2⟩ := ih.2.1 h
        constructor
        · rw [framesReceived_append]
          exact noCloseFrame_append hnc hnc2
        · intro hcl
          rcases closeSendIn_append.mp hcl with hcl | hcl
          · exact hns hcl
          · exact hns2 hcl
      · intro hcl
        rcases closeSendIn_append.mp hcl with hcl | hcl
        · exact absurd (hcs.2.2 hcl) (by simp)
        · exact ih.2.2.1 hcl
      · exact ih.2.2.2
    | returned =>
      have hrr : runReady ((b, ci) :: rest) last = ⟨evs, some b, StepRes.returned⟩ := by
        simp [runReady, hr]
      rw [hrr]
      dsimp only
      refine ⟨hcs.1, ?_, ?_, ?_⟩
      · intro h; simp at h
      · intro _; rfl
      · intro t e h; simp at h
    | exc t0 e0 =>
      have hrr : runReady ((b, ci) :: rest) last = ⟨evs, some b, StepRes.exc t0 e0⟩ := by
        simp [runReady, hr]
      rw [hrr]
      dsimp only
      refine ⟨hcs.1, ?_, ?_, ?_⟩
      · intro h; simp at h
      · intro hcl
        exact absurd (hcs.2.2 hcl) (by simp)
      · intro t e _; exact ⟨b, rfl⟩

/-- Invariants of the whole `while` loop: every CLOSE frame processed is
the last frame read in the session; if a CLOSE frame was forwarded the
loop `return`s; and if the loop ends in an exception while no iteration's
readiness wait raised, the local `is_server` is bound (to the side
processed when the exception was raised). -/
lemma runIters_spec : ∀ (its : List Iteration) (last : Option Bool),
    closesLast (framesReceived (runIters its last).events) ∧
    (closeSendIn (runIters its last).events →
      (runIters its last).res = LoopRes.returned) ∧
    ((∀ it ∈ its, it.selectErr = none) → ∀ t e,
      (runIters its last).res = LoopRes.exc t e →
      ∃ b, (runIters its last).lastFromServer = some b)
  | [], last => by
    refine ⟨?_, ?_, ?_⟩
    · simpa [runIters, framesReceived] using closesLast_nil
    · rintro ⟨t, f, hm, _⟩; simp [runIters] at hm
    · intro _ t e h; simp [runIters] at h
  | it :: rest, last => by
    by_cases hse : it.shouldExit
    · have hrr : runIters (it :: rest) last = ⟨[], last, LoopRes.returned⟩ := by
        simp [runIters, hse]
      rw [hrr]
      dsimp only
      refine ⟨?_, ?_, ?_⟩
      · simpa [framesReceived] using closesLast_nil
      · intro _; rfl
      · intro _ t e h; simp at h
    · cases hsel : it.selectErr with
      | some te =>
        rcases te with ⟨t0, e0⟩
        have hrr : runIters (it :: rest) last = ⟨[], last, LoopRes.exc t0 e0⟩ := by
          simp [runIters, hse, hsel]
        rw [hrr]
        dsimp only
        refine ⟨?_, ?_, ?_⟩
        · simpa [framesReceived] using closesLast_nil
        · rintro ⟨t, f, hm, _⟩; simp at hm
        · intro hsels t e _
          have := hsels it (by simp)
          rw [hsel] at this
          simp at this
      | none =>
        have hready := runReady_spec (readyList it) last
        rcases hr : runReady (readyList it) last with ⟨evs, l, res⟩
        rw [hr] at hready
        dsimp only at hready
        cases res with
        | ok =>
          have ih := runIters_spec rest l
          have hrr : runIters (it :: rest) last =
              ⟨evs ++ (runIters rest l).events,
               (runIters rest l).lastFromServer,
               (runIters rest l).res⟩ := by
            simp [runIters, hse, hsel, hr]
          rw [hrr]
          dsimp only
          obtain ⟨hnc, hns⟩ := hready.2.1 rfl
          refine ⟨?_, ?_, ?_⟩
          · rw [framesReceived_append]
            exact closesLast_append ih.1 hnc
          · intro h
            rcases closeSendIn_append.mp h with h | h
            · exact absurd (hready.2.2.1 h) (by simp)
            · exact ih.2.1 h
          · intro hsels t e h
            exact ih.2.2 (fun x hx => hsels x (List.mem_cons_of_mem it hx)) t e h
        | returned =>
          have hrr : runIters (it :: rest) last = ⟨evs, l, LoopRes.returned⟩ := by
            simp [runIters, hse, hsel, hr]
          rw [hrr]
          dsimp only
          refine ⟨hready.1, ?_, ?_⟩
          · intro _; rfl
          · intro _ t e h; simp at h
        | exc t0 e0 =>
          have hrr : runIters (it :: rest) last = ⟨evs, l, LoopRes.exc t0 e0⟩ := by
            simp [runIters, hse, hsel, hr]
          rw [hrr]
          dsimp only
          refine ⟨hready.1, ?_, ?_⟩
          · intro hcl
            exact absurd (hready.2.2.1 hcl) (by simp)
          · intro _ t e _
            exact hready.2.2.2 t0 e0 rfl

lemma relay_loop_cases (its : List Iteration) :
    (relay_loop its).1 = (runIters its none).events ∨
    ∃ b e, (relay_loop its).1 = (runIters its none).events ++
      [Event.log LogLevel.info (LogMsg.closedUnexpectedly b e)] := by
  unfold relay_loop
  rcases hr : runIters its none with ⟨evs, last, res⟩
  cases res with
  | exhausted => simp
  | returned => simp
  | exc t e =>
    cases t with
    | false => simp
    | true =>
      cases last with
      | none => simp
      | some b =>
        right
        exact ⟨b, e, by simp⟩

lemma relay_loop_outcome_of_returned (its : List Iteration)
    (h : (runIters its none).res = LoopRes.returned) :
    (relay_loop its).2 = Outcome.returned := by
  unfold relay_loop
  rcases hr : runIters its none with ⟨evs, last, res⟩
  rw [hr] at h
  dsimp only at h
  rw [h]

/-- C10: every CLOSE frame processed by the relay loop is the last frame
read in either direction — nothing is read after it, so the answering
CLOSE from the opposite peer is never read or relayed by this layer — and
once a CLOSE frame has been relayed onward the loop returns. -/
theorem close_is_last_frame (its : List Iteration) :
    (∀ pre b f post,
      framesReceived (relay_loop its).1 = pre ++ (b, f) :: post →
      f.header.opcode = OPCODE.CLOSE → post = []) ∧
    (∀ t f, Event.send t f ∈ (relay_loop its).1 →
      f.header.opcode = OPCODE.CLOSE → (relay_loop its).2 = Outcome.returned) := by
  have hfr : framesReceived (relay_loop its).1 =
      framesReceived (runIters its none).events := by
    rcases relay_loop_cases its with h | ⟨b', e', h⟩
    · rw [h]
    · rw [h, framesReceived_append]
      simp [framesReceived]
  constructor
  · intro pre b f post heq hc
    rw [hfr] at heq
    exact (runIters_spec its none).1 pre b f post heq hc
  · intro t f hmem hc
    have hsend : Event.send t f ∈ (runIters its none).events := by
      rcases relay_loop_cases its with h | ⟨b', e', h⟩
      · rwa [h] at hmem
      · rw [h] at hmem
        rcases List.mem_append.mp hmem with hm | hm
        · exact hm
        · simp at hm
    exact relay_loop_outcome_of_returned its
      ((runIters_spec its none).2.1 ⟨t, f, hsend, hc⟩)

/-- A relay-loop script in which the server sends one CLOSE frame. -/
def close_script : List Iteration :=
  [⟨false, none, none, some (ConnInput.frameOk sample_close_frame none)⟩]

/-- Witness for C10 on the concrete script where the server sends a CLOSE
frame: the CLOSE is the only (hence last) frame read, and the loop
returns. -/
theorem close_is_last_frame_witness :
    ([] : List (Bool × Frame)) = [] ∧
    (relay_loop close_script).2 = Outcome.returned := by
  have h := close_is_last_frame close_script
  exact ⟨h.1 [] true sample_close_frame [] (by decide) rfl,
         h.2 false sample_close_frame (by decide) rfl⟩

/-- A relay-loop script in which both connections are simultaneously
ready, the client with a CLOSE frame and the server with a TEXT frame. -/
def both_ready_close_script : List Iteration :=
  [⟨false, none, some (ConnInput.frameOk sample_close_frame none),
    some (ConnInput.frameOk sample_text_frame none)⟩]

/-- C8 (counterexample): both connections simultaneously ready, the
client's frame a CLOSE: only the client's frame is processed — the
server's ready TEXT frame is never read or classified in that iteration
(the loop has already returned), so both ready connections are not always
drained within the same iteration. -/
theorem both_ready_close_skips_other_cex :
    framesReceived (relay_loop both_ready_close_script).1 =
      [(false, sample_close_frame)] ∧
    (relay_loop both_ready_close_script).2 = Outcome.returned ∧
    Event.log LogLevel.debug (LogMsg.frameReceived true sample_text_frame) ∉
      (relay_loop both_ready_close_script).1 := by
  refine ⟨by decide, by decide, by decide⟩

/-- C8 (amended): within one iteration the ready connections are processed
sequentially, the client's fully (one frame, classify and forward) before
the server's is checked; when both are simultaneously ready and neither
frame is a CLOSE (and no exception interrupts), both are drained within
that same iteration, each frame independently passing through
`_handle_frame`, before the loop proceeds to the next iteration. -/
theorem both_ready_drained_when_no_close (it : Iteration) (f1 f2 : Frame)
    (rest : List Iteration) (last : Option Bool)
    (hit : it = ⟨false, none, some (ConnInput.frameOk f1 none),
      some (ConnInput.frameOk f2 none)⟩)
    (h1 : f1.header.opcode ≠ OPCODE.CLOSE)
    (h2 : f2.header.opcode ≠ OPCODE.CLOSE) :
    runIters (it :: rest) last =
      ⟨(handle_frame f1 false).1 ++ ((handle_frame f2 true).1 ++
         (runIters rest (some true)).events),
       (runIters rest (some true)).lastFromServer,
       (runIters rest (some true)).res⟩ := by
  subst hit
  have e1 : (handle_frame f1 false).2 = true := handle_frame_cont f1 false h1
  have e2 : (handle_frame f2 true).2 = true := handle_frame_cont f2 true h2
  simp [runIters, readyList, runReady, runConn, e1, e2]

/-- Witness for C8 (amended) at a concrete iteration where the client
sends a TEXT frame and the server a PING frame, with an empty remaining
script. -/
theorem both_ready_drained_when_no_close_witness :
    runIters [⟨false, none, some (ConnInput.frameOk sample_text_frame none),
      some (ConnInput.frameOk sample_ping_frame none)⟩] none =
      ⟨(handle_frame sample_text_frame false).1 ++
         ((handle_frame sample_ping_frame true).1 ++
           (runIters [] (some true)).events),
       (runIters [] (some true)).lastFromServer,
       (runIters [] (some true)).res⟩ :=
  both_ready_drained_when_no_close _ sample_text_frame sample_ping_frame [] none
    rfl (by decide) (by decide)

/-- C6: a transport-level exception (socket, TCP, TLS) raised while
reading a frame from, or forwarding a frame to, either connection during
the relay loop is caught: the session ends normally (no exception reaches
the caller) after one informational record naming the side the disconnect
is attributed to (the side whose connection was being processed).  The
hypothesis that no readiness wait itself raised restricts the statement to
exceptions raised while reading or writing a connection, which is the
claim's scope; it also guarantees the handler's `is_server` local is
bound. -/
theorem transport_error_reported (its : List Iteration) (e : String)
    (evs : List Event) (last : Option Bool)
    (hsel : ∀ it ∈ its, it.selectErr = none)
    (h : runIters its none = ⟨evs, last, LoopRes.exc true e⟩) :
    ∃ b, last = some b ∧
      relay_loop its =
        (evs ++ [Event.log LogLevel.info (LogMsg.closedUnexpectedly b e)],
         Outcome.returned) := by
  have hspec := (runIters_spec its none).2.2 hsel true e (by rw [h])
  rw [h] at hspec
  dsimp only at hspec
  obtain ⟨b, hb⟩ := hspec
  refine ⟨b, hb, ?_⟩
  unfold relay_loop
  rw [h]
  simp [hb]

/-- A relay-loop script in which reading from the server connection raises
a connection-reset transport error. -/
def server_reset_script : List Iteration :=
  [⟨false, none, none, some (ConnInput.readErr true "ConnectionReset")⟩]

/-- Witness for C6 on the concrete script where the server connection
resets mid-relay: the disconnect is attributed to the server side and the
loop returns without raising. -/
theorem transport_error_reported_witness :
    ∃ b, (some true : Option Bool) = some b ∧
      relay_loop server_reset_script =
        ([Event.log LogLevel.info (LogMsg.closedUnexpectedly b "ConnectionReset")],
         Outcome.returned) :=
  transport_error_reported server_reset_script "ConnectionReset" [] (some true)
    (by decide) (by decide)

/-- C7: any exception in the relay loop other than a transport-level one
is re-raised to the caller as a single `ProtocolException` whose message
carries the original exception's description. -/
theorem unexpected_error_wrapped (its : List Iteration) (e : String)
    (evs : List Event) (last : Option Bool)
    (h : runIters its none = ⟨evs, last, LoopRes.exc false e⟩) :
    relay_loop its =
      (evs, Outcome.raised (Exc.protocolException
        (String.append protocol_error_head e))) := by
  unfold relay_loop
  rw [h]

/-- A relay-loop script in which frame decoding on the client connection
raises a non-transport exception. -/
def other_error_script : List Iteration :=
  [⟨false, none, some (ConnInput.readErr false "ValueError"), none⟩]

/-- Witness for C7 on a concrete script raising a non-transport error. -/
theorem unexpected_error_wrapped_witness :
    relay_loop other_error_script =
      ([], Outcome.raised (Exc.protocolException
        (String.append protocol_error_head "ValueError"))) :=
  unexpected_error_wrapped other_error_script "ValueError" [] (some false) (by decide)

/-- C4: if the origin server's handshake response fails the upgrade
validation, `__call__` raises a `ProtocolException` having sent only the
relayed upgrade request: no handshake response is ever sent to the client,
no frame is ever forwarded, and the relay loop is never entered. -/
theorem handshake_failure_no_relay (env : Env)
    (h : check_handshake env.response_headers = false) :
    run env = ([Event.sendRequestToServer],
      Outcome.raised (Exc.protocolException handshake_failed_msg)) ∧
    (∀ st rp hs bd, Event.sendResponseToClient st rp hs bd ∉ (run env).1) ∧
    (∀ t f, Event.send t f ∉ (run env).1) := by
  have hrun : run env = ([Event.sendRequestToServer],
      Outcome.raised (Exc.protocolException handshake_failed_msg)) := by
    unfold run initiate_server_conn
    simp [h]
  refine ⟨hrun, ?_, ?_⟩
  · intro st rp hs bd hmem
    rw [hrun] at hmem
    simp at hmem
  · intro t f hmem
    rw [hrun] at hmem
    simp at hmem

/-- A session whose origin server answered the upgrade request with an
ordinary (non-upgrade) response, e.g. a 200 without WebSocket headers. -/
def bad_handshake_env : Env :=
  ⟨"dGhlIHNhbXBsZSBub25jZQ==", [("content-type", "text/html")], []⟩

/-- Witness for C4 on a session whose origin response carries no WebSocket
upgrade headers. -/
theorem handshake_failure_no_relay_witness :
    run bad_handshake_env = ([Event.sendRequestToServer],
      Outcome.raised (Exc.protocolException handshake_failed_msg)) ∧
    Event.sendResponseToClient 101 "Switching Protocols" [] [] ∉
      (run bad_handshake_env).1 ∧
    Event.send true sample_text_frame ∉ (run bad_handshake_env).1 := by
  have h := handshake_failure_no_relay bad_handshake_env (by decide)
  exact ⟨h.1, h.2.1 101 "Switching Protocols" [] [], h.2.2 true sample_text_frame⟩

/-- Origin handshake response carrying accept token `"token-a"`. -/
def accept_a_headers : Headers :=
  [("upgrade", "websocket"), ("connection", "Upgrade"),
   ("sec-websocket-accept", "token-a")]

/-- Origin handshake response carrying accept token `"token-b"`. -/
def accept_b_headers : Headers :=
  [("upgrade", "websocket"), ("connection", "Upgrade"),
   ("sec-websocket-accept", "token-b")]

/-- C5 (counterexample): two origin responses differing only in the accept
token they carry both pass validation and yield sessions with different
extracted accept tokens, yet the 101 responses built for the client are
identical — the extracted accept token is never consumed in building the
client response. -/
theorem negotiated_accept_not_consumed_cex :
    (initiate_server_conn "key0" accept_a_headers).map Session.server_accept ≠
      (initiate_server_conn "key0" accept_b_headers).map Session.server_accept ∧
    (initiate_server_conn "key0" accept_a_headers).map complete_handshake =
      (initiate_server_conn "key0" accept_b_headers).map complete_handshake := by
  constructor
  · decide
  · decide

/-- C5 (amended): the negotiated subprotocol and extensions are each
consumed exactly once to build the 101 response sent to the client, whose
headers carry the subprotocol entry exactly when the server selected one
and the extensions entry exactly when any were negotiated, with an empty
body; the accept header is re-derived from the client key, and the accept
token extracted from the server's response is never consumed — the
response is invariant under changing it. -/
theorem client_response_from_client_key (s : Session) (a : Option String) :
    complete_handshake { s with server_accept := a } = complete_handshake s ∧
    complete_handshake s =
      Event.sendResponseToClient 101 "Switching Protocols"
        (server_handshake_headers s.client_key s.server_protocol
          s.server_extensions) [] ∧
    get_header (server_handshake_headers s.client_key s.server_protocol
        s.server_extensions) "sec-websocket-accept" =
      some (create_server_nonce s.client_key) ∧
    get_header (server_handshake_headers s.client_key s.server_protocol
        s.server_extensions) "sec-websocket-protocol" = s.server_protocol ∧
    get_header (server_handshake_headers s.client_key s.server_protocol
        s.server_extensions) "sec-websocket-extensions" = s.server_extensions := by
  refine ⟨rfl, rfl, ?_, ?_, ?_⟩
  · cases s.server_protocol <;> cases s.server_extensions <;> rfl
  · cases s.server_protocol <;> cases s.server_extensions <;> rfl
  · cases s.server_protocol <;> cases s.server_extensions <;> rfl

end Websockets
